import Mathlib

/-!
Verification of the banking-system core in `src/main.py`.

The Python module keeps all state in `st.session_state` dictionaries:
`accounts`, `transactions`, `transfer_data`, `loans`, `fixed_deposits`,
`failed_attempts`, plus the session flags `authenticated`, `current_user`,
`login_time` and `transfer_confirmation`.  The embedding below models

* dictionaries as association lists `List (String × α)` (insertion order
  preserved; `dictSet` mirrors `d[k] = v`, `dictDel` mirrors `del d[k]`);
* timestamps as integers counting seconds (the source stores formatted
  `"%Y-%m-%d %H:%M:%S"` strings and re-parses them; the round trip is exact
  at second resolution, and `timedelta.seconds` becomes `· % 86400`,
  `timedelta.days` becomes `Int.fdiv · 86400`);
* Python floats (loan/FD interest arithmetic) as exact rationals, and
  Python's banker-rounding `round` as `pyRound`;
* `uuid.uuid4()` results as explicit string parameters of each operation;
* an uncaught exception (e.g. a `KeyError` on a missing account) as `none`.

Each operation returns `Option (BankState × Bool × String)`: the new state
together with the `(success, message)` pair the source returns.
-/

/-- Python dict assignment `d[k] = v` on an insertion-ordered dictionary:
replace in place when the key is present, append otherwise. -/
def dictSet {α : Type} (l : List (String × α)) (k : String) (v : α) :
    List (String × α) :=
  if (l.lookup k).isSome then
    l.map (fun p => if p.1 = k then (k, v) else p)
  else
    l ++ [(k, v)]

/-- Python dict deletion `del d[k]`. -/
def dictDel {α : Type} (l : List (String × α)) (k : String) :
    List (String × α) :=
  l.filter (fun p => p.1 != k)

/-- Constant `LOAN_INTEREST_RATE = 0.05` from `main.py`. -/
def LOAN_INTEREST_RATE : ℚ := 5 / 100

/-- Constant `FIXED_DEPOSIT_INTEREST = 0.07` from `main.py`. -/
def FIXED_DEPOSIT_INTEREST : ℚ := 7 / 100

/-- Constant `SESSION_TIMEOUT = 1800` from `main.py`. -/
def SESSION_TIMEOUT : ℤ := 1800

/-- Python's built-in `round` (round half to even) on an exact rational. -/
def pyRound (q : ℚ) : ℤ :=
  if (q + 1/2).den = 1 ∧ ⌊q + 1/2⌋ % 2 ≠ 0 then ⌊q + 1/2⌋ - 1 else ⌊q + 1/2⌋

/-- An entry of `st.session_state.accounts` (see `create_account`). -/
structure Account where
  password : String
  balance : ℤ
  created : ℤ
  account_id : String
  email : String
  last_login : Option ℤ
  account_type : String
  status : String
deriving DecidableEq

/-- An entry of `st.session_state.transactions[username]`
(see `record_transaction`). -/
structure Transaction where
  type : String
  amount : ℤ
  timestamp : ℤ
  balance_after : ℤ
  transaction_id : String
  description : Option String
deriving DecidableEq

/-- An entry of `st.session_state.transfer_data` (see `initiate_transfer`). -/
structure PendingTransfer where
  sender : String
  recipient : String
  recipient_account_id : String
  amount : ℤ
  timestamp : ℤ
  description : Option String
deriving DecidableEq

/-- An entry of `st.session_state.loans[username]` (see `apply_for_loan`). -/
structure Loan where
  amount : ℤ
  duration_months : ℤ
  interest_rate : ℚ
  monthly_payment : ℤ
  remaining_balance : ℚ
  start_date : ℤ
  status : String
  payments_made : ℤ
  end_date : Option ℤ
deriving DecidableEq

/-- An entry of `st.session_state.fixed_deposits[username]`
(see `create_fixed_deposit`). -/
structure FixedDeposit where
  principal : ℤ
  duration_months : ℤ
  interest_rate : ℚ
  maturity_amount : ℤ
  start_date : ℤ
  maturity_date : ℤ
  status : String
  closed_date : Option ℤ
deriving DecidableEq

/-- An entry of `st.session_state.failed_attempts` (see `authenticate`).
The source initialises the record to count 0 / timestamp None and in the
same statement bumps the count and stamps the time, so a stored record
always carries a real timestamp; it is therefore modelled as an integer. -/
structure FailedAttempt where
  count : ℤ
  timestamp : ℤ
deriving DecidableEq

/-- The whole `st.session_state` of the source. -/
structure BankState where
  accounts : List (String × Account)
  transactions : List (String × List Transaction)
  transfer_data : List (String × PendingTransfer)
  loans : List (String × List (String × Loan))
  fixed_deposits : List (String × List (String × FixedDeposit))
  failed_attempts : List (String × FailedAttempt)
  authenticated : Bool
  current_user : Option String
  login_time : Option ℤ
  transfer_confirmation : Bool
deriving DecidableEq

/-- The source hashes passwords with SHA-256.  The digest computation is
outside every claim; it is modelled as an injective deterministic encoding
of the password. -/
def hash_password (password : String) : String :=
  "sha256:" ++ password

/-- `record_transaction` from `main.py`: appends a transaction stamped with
the account's current balance.  The per-user transaction dict (keyed by the
fresh uuid `transaction_id`) is modelled as an append-only list; `none`
models the `KeyError` raised when the account is missing. -/
def record_transaction (s : BankState) (username transaction_type : String)
    (amount : ℤ) (transaction_id : String) (description : Option String)
    (now : ℤ) : Option BankState :=
  match s.accounts.lookup username with
  | none => none
  | some a =>
    some { s with transactions := (dictSet s.transactions username
      ((s.transactions.lookup username).getD [] ++
        [⟨transaction_type, amount, now, a.balance, transaction_id, description⟩])) }

/-- `create_account` from `main.py`.  `account_id` stands for the fresh
`uuid4` prefix and `tid` for the fresh transaction uuid. -/
def create_account (s : BankState) (username password email : String)
    (initial_deposit : ℤ) (account_id tid : String) (now : ℤ) :
    Option (BankState × Bool × String) :=
  if (s.accounts.lookup username).isSome then
    some (s, false, "Username already exists")
  else if s.accounts.any (fun p => p.2.email == email) then
    some (s, false, "Email already registered with another account")
  else
    let a : Account :=
      ⟨hash_password password, initial_deposit, now, account_id, email,
        none, "standard", "active"⟩
    let s1 := { s with accounts := dictSet s.accounts username a }
    if 0 < initial_deposit then
      match record_transaction s1 username "Account Creation Deposit"
          initial_deposit tid none now with
      | none => none
      | some s2 =>
        some (s2, true, "Account created successfully! Your Account ID: " ++ account_id)
    else
      some (s1, true, "Account created successfully! Your Account ID: " ++ account_id)

/-- `authenticate` from `main.py`.  The lockout test re-parses the stored
failure time and compares `timedelta.seconds` (the wrapped seconds
component, i.e. the elapsed time modulo 86400) with 3600. -/
def authenticate (s : BankState) (username password : String) (now : ℤ) :
    Option (BankState × Bool × String) :=
  let locked :=
    match s.failed_attempts.lookup username with
    | some fa => decide (5 ≤ fa.count) && decide ((now - fa.timestamp) % 86400 < 3600)
    | none => false
  if locked then
    some (s, false, "Account locked due to too many failed attempts. Try again later.")
  else
    match s.accounts.lookup username with
    | none => some (s, false, "Username not found")
    | some a =>
      if hash_password password ≠ a.password then
        let oldCount :=
          match s.failed_attempts.lookup username with
          | some fa => fa.count
          | none => 0
        let s1 := { s with failed_attempts :=
          (dictSet s.failed_attempts username ⟨oldCount + 1, now⟩) }
        if 5 - (oldCount + 1) ≤ 0 then
          some (s1, false, "Account locked due to too many failed attempts. Try again later.")
        else
          some (s1, false,
            "Incorrect password. " ++ toString (5 - (oldCount + 1)) ++ " attempts remaining")
      else
        some ({ s with
            failed_attempts := dictDel s.failed_attempts username,
            authenticated := true,
            current_user := some username,
            login_time := some now,
            accounts := dictSet s.accounts username { a with last_login := some now } },
          true, "Login successful")

/-- `deposit` from `main.py`. -/
def deposit (s : BankState) (username : String) (amount : ℤ) (tid : String)
    (now : ℤ) : Option (BankState × Bool × String) :=
  if amount ≤ 0 then
    some (s, false, "Amount must be positive")
  else
    match s.accounts.lookup username with
    | none => none
    | some a =>
      let s1 := { s with accounts :=
        (dictSet s.accounts username { a with balance := a.balance + amount }) }
      match record_transaction s1 username "Deposit" amount tid none now with
      | none => none
      | some s2 =>
        some (s2, true,
          "Deposited $" ++ toString amount ++ " successfully. Transaction ID: " ++ tid)

/-- `withdraw` from `main.py`. -/
def withdraw (s : BankState) (username : String) (amount : ℤ) (tid : String)
    (now : ℤ) : Option (BankState × Bool × String) :=
  if amount ≤ 0 then
    some (s, false, "Amount must be positive")
  else
    match s.accounts.lookup username with
    | none => none
    | some a =>
      if a.balance < amount then
        some (s, false, "Insufficient funds")
      else
        let s1 := { s with accounts :=
          (dictSet s.accounts username { a with balance := a.balance - amount }) }
        match record_transaction s1 username "Withdrawal" amount tid none now with
        | none => none
        | some s2 =>
          some (s2, true,
            "Withdrew $" ++ toString amount ++ " successfully. Transaction ID: " ++ tid)

/-- `initiate_transfer` from `main.py`: validates and stages a pending
transfer; no funds move.  `transfer_id` stands for the fresh uuid. -/
def initiate_transfer (s : BankState) (sender_username recipient_username
    recipient_account_id : String) (amount : ℤ) (description : Option String)
    (transfer_id : String) (now : ℤ) : Option (BankState × Bool × String) :=
  match s.accounts.lookup recipient_username with
  | none => some (s, false, "Recipient username not found")
  | some recipient_account =>
    if recipient_account.account_id ≠ recipient_account_id then
      some (s, false, "Account ID doesn\x27t match the username")
    else if sender_username = recipient_username then
      some (s, false, "Cannot transfer to yourself")
    else
      match s.accounts.lookup sender_username with
      | none => none
      | some sender_account =>
        if sender_account.balance < amount then
          some (s, false, "Insufficient funds for transfer")
        else
          some ({ s with transfer_data := (dictSet s.transfer_data transfer_id
              ⟨sender_username, recipient_username, recipient_account_id,
                amount, now, description⟩) },
            true, transfer_id)

/-- `confirm_transfer` from `main.py`: moves the funds of a staged transfer
without re-checking the sender's balance, records both legs under one fresh
transaction uuid (`txid`), and deletes the pending entry. -/
def confirm_transfer (s : BankState) (transfer_id txid : String) (now : ℤ) :
    Option (BankState × Bool × String) :=
  match s.transfer_data.lookup transfer_id with
  | none => some (s, false, "Invalid transfer request")
  | some t =>
    match s.accounts.lookup t.sender with
    | none => none
    | some sa =>
      let s1 := { s with accounts :=
        (dictSet s.accounts t.sender { sa with balance := sa.balance - t.amount }) }
      match s1.accounts.lookup t.recipient with
      | none => none
      | some ra =>
        let s2 := { s1 with accounts :=
          (dictSet s1.accounts t.recipient { ra with balance := ra.balance + t.amount }) }
        match record_transaction s2 t.sender "Transfer Out" t.amount txid t.description now with
        | none => none
        | some s3 =>
          match record_transaction s3 t.recipient "Transfer In" t.amount txid t.description now with
          | none => none
          | some s4 =>
            some ({ s4 with transfer_data := dictDel s4.transfer_data transfer_id },
              true,
              "Transferred $" ++ toString t.amount ++ " to " ++ t.recipient ++
                " successfully. Transaction ID: " ++ txid)

/-- `calculate_monthly_payment` from `main.py`. -/
def calculate_monthly_payment (principal : ℤ) (months : ℤ) : ℤ :=
  pyRound ((principal : ℚ) * (1 + LOAN_INTEREST_RATE) / (months : ℚ))

/-- `apply_for_loan` from `main.py`.  `loan_id` and `tid` stand for the
fresh uuids.  `(now - created).fdiv 86400` is `timedelta.days`. -/
def apply_for_loan (s : BankState) (username : String)
    (amount duration_months : ℤ) (loan_id tid : String) (now : ℤ) :
    Option (BankState × Bool × String) :=
  if amount ≤ 0 then
    some (s, false, "Loan amount must be positive")
  else if duration_months ≤ 0 then
    some (s, false, "Loan duration must be positive")
  else
    match s.accounts.lookup username with
    | none => none
    | some a =>
      if (now - a.created).fdiv 86400 < 90 then
        some (s, false, "Account must be at least 3 months old to apply for a loan")
      else if ((s.loans.lookup username).getD []).any (fun p => p.2.status == "active") then
        some (s, false, "You already have an active loan")
      else
        let monthly_payment := calculate_monthly_payment amount duration_months
        let loan : Loan :=
          ⟨amount, duration_months, LOAN_INTEREST_RATE, monthly_payment,
            (amount : ℚ) * (1 + LOAN_INTEREST_RATE), now, "active", 0, none⟩
        let s1 := { s with loans := (dictSet s.loans username
          (((s.loans.lookup username).getD []) ++ [(loan_id, loan)])) }
        let s2 := { s1 with accounts :=
          (dictSet s1.accounts username { a with balance := a.balance + amount }) }
        match record_transaction s2 username "Loan Disbursement" amount tid
            (some ("Loan ID: " ++ loan_id)) now with
        | none => none
        | some s3 =>
          some (s3, true,
            "Loan approved! $" ++ toString amount ++
              " has been deposited to your account. Loan ID: " ++ loan_id)

/-- `make_loan_payment` from `main.py`: validates in source order
(not found, not active, non-positive amount, insufficient funds, below
minimum), then debits the account, updates the loan, records the payment,
and finally flips the status to paid when the remaining balance is ≤ 0. -/
def make_loan_payment (s : BankState) (username loan_id : String)
    (amount : ℤ) (tid : String) (now : ℤ) :
    Option (BankState × Bool × String) :=
  match ((s.loans.lookup username).getD []).lookup loan_id with
  | none => some (s, false, "Loan not found")
  | some loan =>
    if loan.status ≠ "active" then
      some (s, false, "Loan is not active")
    else if amount ≤ 0 then
      some (s, false, "Payment amount must be positive")
    else
      match s.accounts.lookup username with
      | none => none
      | some a =>
        if a.balance < amount then
          some (s, false, "Insufficient funds for payment")
        else if amount < loan.monthly_payment then
          some (s, false, "Minimum payment required: $" ++ toString loan.monthly_payment)
        else
          let loan1 := { loan with
            remaining_balance := loan.remaining_balance - (amount : ℚ),
            payments_made := loan.payments_made + 1 }
          let userLoans1 := dictSet ((s.loans.lookup username).getD []) loan_id loan1
          let s1 := { s with
            accounts := (dictSet s.accounts username { a with balance := a.balance - amount }),
            loans := (dictSet s.loans username userLoans1) }
          match record_transaction s1 username "Loan Payment" amount tid
              (some ("Loan ID: " ++ loan_id)) now with
          | none => none
          | some s2 =>
            let loan2 :=
              if loan1.remaining_balance ≤ 0 then
                { loan1 with status := "paid", end_date := some now }
              else loan1
            some ({ s2 with loans := (dictSet s2.loans username
                (dictSet userLoans1 loan_id loan2)) },
              true, "Payment of $" ++ toString amount ++ " applied to loan " ++ loan_id)

/-- `calculate_maturity_amount` from `main.py`. -/
def calculate_maturity_amount (principal : ℤ) (months : ℤ) : ℤ :=
  pyRound ((principal : ℚ) * (1 + FIXED_DEPOSIT_INTEREST * ((months : ℚ) / 12)))

/-- `create_fixed_deposit` from `main.py`.  The maturity date is
`now + timedelta(days = 30 * duration_months)`. -/
def create_fixed_deposit (s : BankState) (username : String)
    (amount duration_months : ℤ) (fd_id tid : String) (now : ℤ) :
    Option (BankState × Bool × String) :=
  if amount ≤ 0 then
    some (s, false, "Amount must be positive")
  else if duration_months ≤ 0 then
    some (s, false, "Duration must be positive")
  else
    match s.accounts.lookup username with
    | none => none
    | some a =>
      if a.balance < amount then
        some (s, false, "Insufficient funds for fixed deposit")
      else
        let fd : FixedDeposit :=
          ⟨amount, duration_months, FIXED_DEPOSIT_INTEREST,
            calculate_maturity_amount amount duration_months,
            now, now + 86400 * (30 * duration_months), "active", none⟩
        let s1 := { s with fixed_deposits := (dictSet s.fixed_deposits username
          (((s.fixed_deposits.lookup username).getD []) ++ [(fd_id, fd)])) }
        let s2 := { s1 with accounts :=
          (dictSet s1.accounts username { a with balance := a.balance - amount }) }
        match record_transaction s2 username "Fixed Deposit Creation" amount tid
            (some ("FD ID: " ++ fd_id)) now with
        | none => none
        | some s3 =>
          some (s3, true, "Fixed deposit created successfully! FD ID: " ++ fd_id)

/-- `close_fixed_deposit` from `main.py`. -/
def close_fixed_deposit (s : BankState) (username fd_id : String)
    (tid : String) (now : ℤ) : Option (BankState × Bool × String) :=
  match ((s.fixed_deposits.lookup username).getD []).lookup fd_id with
  | none => some (s, false, "Fixed deposit not found")
  | some fd =>
    if fd.status ≠ "active" then
      some (s, false, "Fixed deposit is not active")
    else if now < fd.maturity_date then
      some (s, false, "Fixed deposit has not matured yet")
    else
      match s.accounts.lookup username with
      | none => none
      | some a =>
        let s1 := { s with accounts :=
          (dictSet s.accounts username { a with balance := a.balance + fd.maturity_amount }) }
        match record_transaction s1 username "Fixed Deposit Maturity" fd.maturity_amount
            tid (some ("FD ID: " ++ fd_id)) now with
        | none => none
        | some s2 =>
          let fd1 := { fd with status := "closed", closed_date := some now }
          some ({ s2 with fixed_deposits := (dictSet s2.fixed_deposits username
              (dictSet ((s2.fixed_deposits.lookup username).getD []) fd_id fd1)) },
            true,
            "Fixed deposit " ++ fd_id ++ " closed. $" ++ toString fd.maturity_amount ++
              " credited to your account")

/-- The Cancel button of the transfer-confirmation screen in `dashboard`
(`main.py` lines 852-855): it only resets the confirmation flag.  The
pending entry in `transfer_data` is not deleted. -/
def cancel_transfer (s : BankState) : BankState :=
  { s with transfer_confirmation := false }

/-- Balance of an account as the source reads it (0 if the account is
absent, a case no claim exercises). -/
def bal (s : BankState) (u : String) : ℤ :=
  match s.accounts.lookup u with
  | some a => a.balance
  | none => 0

/-- Transaction history of a user. -/
def txs (s : BankState) (u : String) : List Transaction :=
  (s.transactions.lookup u).getD []

/-- State reached by an operation: the new state on a normal return, the
input state when the operation is modelled as crashing (`none`). -/
def stateOf (r : Option (BankState × Bool × String)) (s : BankState) : BankState :=
  match r with
  | some (s1, _, _) => s1
  | none => s

/-- Every stored account has a non-negative balance. -/
def AccNonneg (s : BankState) : Prop :=
  ∀ p ∈ s.accounts, 0 ≤ p.2.balance

/-- Every transaction of `s` that is not already a transaction of the base
state `s0` carries a `balance_after` equal to the owning account's balance
in `s`. -/
def AccurateFrom (s0 s : BankState) : Prop :=
  ∀ u tx, tx ∈ txs s u → tx ∈ txs s0 u ∨ tx.balance_after = bal s u

/-- Helper account value for the concrete scenarios below. -/
def mkAccount (b created : ℤ) (aid email : String) : Account :=
  ⟨hash_password "Passw0rd!", b, created, aid, email, none, "standard", "active"⟩

/-- The empty session state. -/
def emptyState : BankState := ⟨[], [], [], [], [], [], false, none, none, false⟩

/-- Start state of the C1 counterexample: alice has balance 100, bob 50. -/
def C1cexStart : BankState :=
  { emptyState with accounts :=
      [("alice", mkAccount 100 0 "A1" "alice@mail.com"),
       ("bob", mkAccount 50 0 "B1" "bob@mail.com")] }

/-- Alice's balance after initiating two transfers of 60 each (both
individually validated against her balance of 100 by `initiate_transfer`)
and then confirming both; `none` if any of the four steps fails. -/
def C1cexFinal : Option ℤ :=
  match initiate_transfer C1cexStart "alice" "bob" "B1" 60 none "t1" 1 with
  | some (s1, true, _) =>
    match initiate_transfer s1 "alice" "bob" "B1" 60 none "t2" 2 with
    | some (s2, true, _) =>
      match confirm_transfer s2 "t1" "X1" 3 with
      | some (s3, true, _) =>
        match confirm_transfer s3 "t2" "X2" 4 with
        | some (s4, true, _) => some (bal s4 "alice")
        | _ => none
      | _ => none
    | _ => none
  | _ => none

/-- Scenario for the C1 witness: carol holds 80 with one staged transfer of
30 to dave. -/
def C1wStart : BankState :=
  { emptyState with
    accounts := [("carol", mkAccount 80 0 "C1" "carol@mail.com"),
                 ("dave", mkAccount 5 0 "D1" "dave@mail.com")],
    transfer_data := [("tw", ⟨"carol", "dave", "D1", 30, 0, none⟩)] }

/-- Scenario for the C2 witness: erin (balance 70) has one staged transfer
of 20 to frank (balance 10). -/
def C2wStart : BankState :=
  { emptyState with
    accounts := [("erin", mkAccount 70 0 "E1" "erin@mail.com"),
                 ("frank", mkAccount 10 0 "F1" "frank@mail.com")],
    transfer_data := [("t2w", ⟨"erin", "frank", "F1", 20, 0, none⟩)] }

/-- Message of an operation result (used to name concrete outcomes in
witness statements). -/
def msgOf (r : Option (BankState × Bool × String)) : String :=
  match r with
  | some (_, _, m) => m
  | none => ""

/-- Scenario for the C3 witness: gina (balance 40) has one staged transfer
of 15 to hank; the id zz was never staged. -/
def C3wStart : BankState :=
  { emptyState with
    accounts := [("gina", mkAccount 40 0 "G1" "gina@mail.com"),
                 ("hank", mkAccount 0 0 "H1" "hank@mail.com")],
    transfer_data := [("t3w", ⟨"gina", "hank", "H1", 15, 0, none⟩)] }

/-- State for the C4 evaluation: bob exists (his stored hash matches the
password used below) and his failed-attempt record reads count 5 with the
last failure stamped at time 1000. -/
def C4state : BankState :=
  { emptyState with
    accounts := [("bob", mkAccount 10 0 "B4" "bob4@mail.com")],
    failed_attempts := [("bob", ⟨5, 1000⟩)] }

/-- Modelled from the spec's validation-precedence list for loan payment
(`not-found → not-active → non-positive amount → insufficient funds →
below-minimum, in that order, since each check short-circuits the next`):
the message of the first failing check, `none` when every check passes. -/
def loanPaymentSpecError (s : BankState) (username loan_id : String)
    (amount : ℤ) : Option String :=
  match ((s.loans.lookup username).getD []).lookup loan_id with
  | none => some "Loan not found"
  | some loan =>
    if loan.status ≠ "active" then some "Loan is not active"
    else if amount ≤ 0 then some "Payment amount must be positive"
    else if bal s username < amount then some "Insufficient funds for payment"
    else if amount < loan.monthly_payment then
      some ("Minimum payment required: $" ++ toString loan.monthly_payment)
    else none

/-- Scenario for the C5 witness: ivy (balance 50) holds an active loan with
monthly payment 9. -/
def C5wStart : BankState :=
  { emptyState with
    accounts := [("ivy", mkAccount 50 0 "I1" "ivy@mail.com")],
    loans := [("ivy", [("L5", ⟨100, 12, 0, 9, 40, 0, "active", 0, none⟩)])] }

/-- Scenario for the C6 witness: judy's account is exactly 90 days old at
time 7776000 and she has no loans. -/
def C6wStart : BankState :=
  { emptyState with accounts := [("judy", mkAccount 0 0 "J1" "judy@mail.com")] }

/-- Scenario for the C7 witness: kate (balance 10) holds an active fixed
deposit of principal 1000 with stored maturity amount 1070 maturing at time
31104000 (360 days of 86400 s). -/
def C7wStart : BankState :=
  { emptyState with
    accounts := [("kate", mkAccount 10 0 "K1" "kate@mail.com")],
    fixed_deposits :=
      [("kate", [("F7", ⟨1000, 12, 0, 1070, 0, 31104000, "active", none⟩)])] }

/-- Success flag of an operation result. -/
def okOf (r : Option (BankState × Bool × String)) : Bool :=
  match r with
  | some (_, ok, _) => ok
  | none => false

/-- Scenario refuting claim C8: leo (balance 60) staged a transfer of 25 to
mia and is on the confirmation screen. -/
def C8cexStart : BankState :=
  { emptyState with
    accounts := [("leo", mkAccount 60 0 "L1" "leo@mail.com"),
                 ("mia", mkAccount 0 0 "M1" "mia@mail.com")],
    transfer_data := [("t8", ⟨"leo", "mia", "M1", 25, 0, none⟩)],
    transfer_confirmation := true }

/-- Scenario for the C10 witness: nora (balance 100) owes only 12 on an
active loan with monthly payment 9, and pays 20. -/
def C10wStart : BankState :=
  { emptyState with
    accounts := [("nora", mkAccount 100 0 "N1" "nora@mail.com")],
    loans := [("nora", [("L10", ⟨100, 12, 0, 9, 12, 0, "active", 3, none⟩)])] }

theorem lookup_append_none {α : Type} (l l2 : List (String × α)) (k : String)
    (h : l.lookup k = none) : (l ++ l2).lookup k = l2.lookup k := by
  induction l with
  | nil => rfl
  | cons p t ih =>
    obtain ⟨pk, pv⟩ := p
    by_cases hk : k = pk
    · subst hk; simp at h
    · have hb : (k == pk) = false := by simp [hk]
      simp only [List.cons_append, List.lookup_cons, hb] at h ⊢
      exact ih h

theorem lookup_append_some {α : Type} (l l2 : List (String × α)) (k : String)
    (v : α) (h : l.lookup k = some v) : (l ++ l2).lookup k = some v := by
  induction l with
  | nil => simp at h
  | cons p t ih =>
    obtain ⟨pk, pv⟩ := p
    by_cases hk : k = pk
    · subst hk; simpa using h
    · have hb : (k == pk) = false := by simp [hk]
      simp only [List.lookup_cons, hb] at h
      simp only [List.cons_append, List.lookup_cons, hb]
      exact ih h

theorem lookup_map_update {α : Type} (k : String) (v : α) :
    ∀ l : List (String × α),
      (l.map (fun p => if p.1 = k then (k, v) else p)).lookup k =
        if (l.lookup k).isSome then some v else none := by
  intro l
  induction l with
  | nil => rfl
  | cons p t ih =>
    obtain ⟨pk, pv⟩ := p
    by_cases hk : pk = k
    · subst hk
      simp
    · have hb : (k == pk) = false := by simp [Ne.symm hk]
      simp only [List.map_cons, if_neg hk, List.lookup_cons, hb, ih]

theorem lookup_map_update_ne {α : Type} (k k' : String) (v : α) (h : k' ≠ k) :
    ∀ l : List (String × α),
      (l.map (fun p => if p.1 = k then (k, v) else p)).lookup k' = l.lookup k' := by
  intro l
  induction l with
  | nil => rfl
  | cons p t ih =>
    obtain ⟨pk, pv⟩ := p
    by_cases hk : pk = k
    · subst hk
      have hb : (k' == pk) = false := by simp [h]
      simp only [List.map_cons, eq_self_iff_true, if_true, List.lookup_cons, hb, ih]
    · by_cases hk' : k' = pk
      · subst hk'
        simp only [List.map_cons, if_neg hk, List.lookup_cons, beq_self_eq_true]
      · have hb : (k' == pk) = false := by simp [hk']
        simp only [List.map_cons, if_neg hk, List.lookup_cons, hb, ih]

theorem lookup_dictSet_self {α : Type} (l : List (String × α)) (k : String)
    (v : α) : (dictSet l k v).lookup k = some v := by
  unfold dictSet
  by_cases h : (l.lookup k).isSome
  · simp [h, lookup_map_update]
  · have hn : l.lookup k = none := by
      cases hl : l.lookup k with
      | none => rfl
      | some x => simp [hl] at h
    simp [h, lookup_append_none l _ k hn]

theorem lookup_dictSet_ne {α : Type} (l : List (String × α)) (k k' : String)
    (v : α) (h : k' ≠ k) : (dictSet l k v).lookup k' = l.lookup k' := by
  unfold dictSet
  by_cases hs : (l.lookup k).isSome
  · simp [hs, lookup_map_update_ne k k' v h]
  · cases hl : l.lookup k' with
    | some x => simp [hs, lookup_append_some l _ k' x hl, hl]
    | none =>
      have hb : (k' == k) = false := by simp [h]
      simp [hs, lookup_append_none l _ k' hl, List.lookup_cons, hb, hl]

theorem mem_dictSet {α : Type} {l : List (String × α)} {k : String} {v : α}
    {p : String × α} (h : p ∈ dictSet l k v) : p ∈ l ∨ p = (k, v) := by
  unfold dictSet at h
  by_cases hs : (l.lookup k).isSome
  · rw [if_pos hs] at h
    rcases List.mem_map.mp h with ⟨q, hq, hqe⟩
    by_cases hqk : q.1 = k
    · right; rw [← hqe]; simp [hqk]
    · left; rw [← hqe]; simp only [if_neg hqk]; exact hq
  · rw [if_neg hs] at h
    rcases List.mem_append.mp h with h1 | h2
    · left; exact h1
    · right; simpa using h2

theorem lookup_dictDel_self {α : Type} (l : List (String × α)) (k : String) :
    (dictDel l k).lookup k = none := by
  unfold dictDel
  induction l with
  | nil => rfl
  | cons p t ih =>
    obtain ⟨pk, pv⟩ := p
    by_cases hk : pk = k
    · subst hk
      simpa using ih
    · have h1 : (pk != k) = true := by simp [hk]
      have hb : (k == pk) = false := by simp [Ne.symm hk]
      simp only [List.filter, h1, List.lookup_cons, hb]
      exact ih

theorem mem_of_lookup {α : Type} {l : List (String × α)} {k : String} {v : α}
    (h : l.lookup k = some v) : (k, v) ∈ l := by
  induction l with
  | nil => simp at h
  | cons p t ih =>
    obtain ⟨pk, pv⟩ := p
    by_cases hk : k = pk
    · subst hk
      simp only [List.lookup_cons, beq_self_eq_true, Option.some.injEq] at h
      simp [h]
    · have hb : (k == pk) = false := by simp [hk]
      simp only [List.lookup_cons, hb] at h
      exact List.mem_cons_of_mem _ (ih h)

theorem nonneg_dictSet {l : List (String × Account)}
    (h : ∀ p ∈ l, 0 ≤ (p.2 : Account).balance) {k : String} {a : Account}
    (ha : 0 ≤ a.balance) : ∀ p ∈ dictSet l k a, 0 ≤ (p.2 : Account).balance := by
  intro p hp
  rcases mem_dictSet hp with h1 | h2
  · exact h p h1
  · rw [h2]; exact ha

theorem create_account_nonneg (s : BankState) (username password email : String)
    (d : ℤ) (aid tid : String) (now : ℤ) (hd : 0 ≤ d) (h : AccNonneg s) :
    AccNonneg (stateOf (create_account s username password email d aid tid now) s) := by
  unfold create_account
  by_cases h1 : (s.accounts.lookup username).isSome
  · simpa [h1, stateOf] using h
  · rw [if_neg h1]
    by_cases h2 : s.accounts.any (fun p => p.2.email == email)
    · simpa [h2, stateOf] using h
    · rw [if_neg h2]
      have hset : ∀ p ∈ dictSet s.accounts username
          (⟨hash_password password, d, now, aid, email, none, "standard", "active"⟩ : Account),
          0 ≤ (p.2 : Account).balance := nonneg_dictSet h hd
      by_cases h3 : 0 < d
      · have hl := lookup_dictSet_self s.accounts username
          (⟨hash_password password, d, now, aid, email, none, "standard", "active"⟩ : Account)
        simp only [if_pos h3, record_transaction, hl, stateOf]
        exact hset
      · simp only [if_neg h3, stateOf]
        exact hset

theorem deposit_nonneg (s : BankState) (u : String) (amt : ℤ) (tid : String)
    (now : ℤ) (h : AccNonneg s) :
    AccNonneg (stateOf (deposit s u amt tid now) s) := by
  unfold deposit
  by_cases hamt : amt ≤ 0
  · simpa [hamt, stateOf] using h
  · rw [if_neg hamt]
    cases ha : s.accounts.lookup u with
    | none => simpa [stateOf] using h
    | some a =>
      have h0 : 0 ≤ a.balance := h (u, a) (mem_of_lookup ha)
      have hl := lookup_dictSet_self s.accounts u { a with balance := a.balance + amt }
      simp only [record_transaction, hl, stateOf]
      exact nonneg_dictSet h (show 0 ≤ a.balance + amt by omega)

theorem withdraw_nonneg (s : BankState) (u : String) (amt : ℤ) (tid : String)
    (now : ℤ) (h : AccNonneg s) :
    AccNonneg (stateOf (withdraw s u amt tid now) s) := by
  unfold withdraw
  by_cases hamt : amt ≤ 0
  · simpa [hamt, stateOf] using h
  · rw [if_neg hamt]
    cases ha : s.accounts.lookup u with
    | none => simpa [stateOf] using h
    | some a =>
      have h0 : 0 ≤ a.balance := h (u, a) (mem_of_lookup ha)
      dsimp only
      by_cases hb : a.balance < amt
      · simpa [hb, stateOf] using h
      · rw [if_neg hb]
        have hl := lookup_dictSet_self s.accounts u { a with balance := a.balance - amt }
        simp only [record_transaction, hl, stateOf]
        exact nonneg_dictSet h (show 0 ≤ a.balance - amt by omega)

theorem initiate_transfer_nonneg (s : BankState) (su ru raid : String)
    (amt : ℤ) (d : Option String) (tid : String) (now : ℤ) (h : AccNonneg s) :
    AccNonneg (stateOf (initiate_transfer s su ru raid amt d tid now) s) := by
  unfold initiate_transfer
  cases hr : s.accounts.lookup ru with
  | none => simpa [stateOf] using h
  | some rAcct =>
    dsimp only
    by_cases h1 : rAcct.account_id ≠ raid
    · simpa [h1, stateOf] using h
    · rw [if_neg h1]
      by_cases h2 : su = ru
      · simpa [h2, stateOf] using h
      · rw [if_neg h2]
        cases hs : s.accounts.lookup su with
        | none => simpa [stateOf] using h
        | some sAcct =>
          dsimp only
          by_cases h3 : sAcct.balance < amt
          · simpa [h3, stateOf] using h
          · simpa [h3, stateOf] using h

theorem confirm_transfer_unknown_nonneg (s : BankState) (tid txid : String)
    (now : ℤ) (ht : s.transfer_data.lookup tid = none) (h : AccNonneg s) :
    AccNonneg (stateOf (confirm_transfer s tid txid now) s) := by
  simpa [confirm_transfer, ht, stateOf] using h

theorem confirm_transfer_nonneg (s : BankState) (tid txid : String) (now : ℤ)
    (t : PendingTransfer) (sa ra : Account)
    (ht : s.transfer_data.lookup tid = some t)
    (hne : t.sender ≠ t.recipient)
    (hsa : s.accounts.lookup t.sender = some sa)
    (hra : s.accounts.lookup t.recipient = some ra)
    (h0 : 0 ≤ t.amount) (h1 : t.amount ≤ sa.balance)
    (h : AccNonneg s) :
    AccNonneg (stateOf (confirm_transfer s tid txid now) s) := by
  have hra0 : 0 ≤ ra.balance := h (t.recipient, ra) (mem_of_lookup hra)
  have e1 : (dictSet s.accounts t.sender
      { sa with balance := sa.balance - t.amount }).lookup t.recipient = some ra :=
    (lookup_dictSet_ne _ _ _ _ (Ne.symm hne)).trans hra
  have e2 : (dictSet (dictSet s.accounts t.sender
      { sa with balance := sa.balance - t.amount }) t.recipient
      { ra with balance := ra.balance + t.amount }).lookup t.sender =
      some { sa with balance := sa.balance - t.amount } :=
    (lookup_dictSet_ne _ _ _ _ hne).trans (lookup_dictSet_self _ _ _)
  have e3 : (dictSet (dictSet s.accounts t.sender
      { sa with balance := sa.balance - t.amount }) t.recipient
      { ra with balance := ra.balance + t.amount }).lookup t.recipient =
      some { ra with balance := ra.balance + t.amount } :=
    lookup_dictSet_self _ _ _
  simp only [confirm_transfer, ht, hsa, e1, record_transaction, e2, e3, stateOf]
  intro p hp
  rcases mem_dictSet hp with hp1 | hp2
  · rcases mem_dictSet hp1 with hp3 | hp4
    · exact h p hp3
    · rw [hp4]; show 0 ≤ sa.balance - t.amount; omega
  · rw [hp2]; show 0 ≤ ra.balance + t.amount; omega

theorem apply_for_loan_nonneg (s : BankState) (u : String) (amt m : ℤ)
    (lid tid : String) (now : ℤ) (h : AccNonneg s) :
    AccNonneg (stateOf (apply_for_loan s u amt m lid tid now) s) := by
  unfold apply_for_loan
  by_cases h1 : amt ≤ 0
  · simpa [h1, stateOf] using h
  · rw [if_neg h1]
    by_cases h2 : m ≤ 0
    · simpa [h2, stateOf] using h
    · rw [if_neg h2]
      cases ha : s.accounts.lookup u with
      | none => simpa [stateOf] using h
      | some a =>
        have h0 : 0 ≤ a.balance := h (u, a) (mem_of_lookup ha)
        dsimp only
        by_cases h3 : (now - a.created).fdiv 86400 < 90
        · simpa [h3, stateOf] using h
        · rw [if_neg h3]
          by_cases h4 : ((s.loans.lookup u).getD []).any
              (fun p => p.2.status == "active") = true
          · simpa [h4, stateOf] using h
          · rw [if_neg h4]
            have hl := lookup_dictSet_self s.accounts u
              { a with balance := a.balance + amt }
            simp only [record_transaction, hl, stateOf]
            exact nonneg_dictSet h (show 0 ≤ a.balance + amt by omega)

theorem make_loan_payment_nonneg (s : BankState) (u lid : String) (amt : ℤ)
    (tid : String) (now : ℤ) (h : AccNonneg s) :
    AccNonneg (stateOf (make_loan_payment s u lid amt tid now) s) := by
  unfold make_loan_payment
  cases hl : ((s.loans.lookup u).getD []).lookup lid with
  | none => simpa [stateOf] using h
  | some loan =>
    dsimp only
    by_cases h1 : loan.status ≠ "active"
    · simpa [h1, stateOf] using h
    · rw [if_neg h1]
      by_cases h2 : amt ≤ 0
      · simpa [h2, stateOf] using h
      · rw [if_neg h2]
        cases ha : s.accounts.lookup u with
        | none => simpa [stateOf] using h
        | some a =>
          have h0 : 0 ≤ a.balance := h (u, a) (mem_of_lookup ha)
          dsimp only
          by_cases h3 : a.balance < amt
          · simpa [h3, stateOf] using h
          · rw [if_neg h3]
            by_cases h4 : amt < loan.monthly_payment
            · simpa [h4, stateOf] using h
            · rw [if_neg h4]
              have hlk := lookup_dictSet_self s.accounts u
                { a with balance := a.balance - amt }
              simp only [record_transaction, hlk, stateOf]
              exact nonneg_dictSet h (show 0 ≤ a.balance - amt by omega)

theorem create_fixed_deposit_nonneg (s : BankState) (u : String) (amt m : ℤ)
    (fid tid : String) (now : ℤ) (h : AccNonneg s) :
    AccNonneg (stateOf (create_fixed_deposit s u amt m fid tid now) s) := by
  unfold create_fixed_deposit
  by_cases h1 : amt ≤ 0
  · simpa [h1, stateOf] using h
  · rw [if_neg h1]
    by_cases h2 : m ≤ 0
    · simpa [h2, stateOf] using h
    · rw [if_neg h2]
      cases ha : s.accounts.lookup u with
      | none => simpa [stateOf] using h
      | some a =>
        have h0 : 0 ≤ a.balance := h (u, a) (mem_of_lookup ha)
        dsimp only
        by_cases h3 : a.balance < amt
        · simpa [h3, stateOf] using h
        · rw [if_neg h3]
          have hlk := lookup_dictSet_self s.accounts u
            { a with balance := a.balance - amt }
          simp only [record_transaction, hlk, stateOf]
          exact nonneg_dictSet h (show 0 ≤ a.balance - amt by omega)

theorem close_fixed_deposit_nonneg (s : BankState) (u fid tid : String)
    (now : ℤ)
    (hm : match ((s.fixed_deposits.lookup u).getD []).lookup fid with
          | some fd => 0 ≤ fd.maturity_amount
          | none => True)
    (h : AccNonneg s) :
    AccNonneg (stateOf (close_fixed_deposit s u fid tid now) s) := by
  unfold close_fixed_deposit
  cases hl : ((s.fixed_deposits.lookup u).getD []).lookup fid with
  | none => simpa [stateOf] using h
  | some fd =>
    have hm0 : 0 ≤ fd.maturity_amount := by
      have := hm
      rw [hl] at this
      exact this
    dsimp only
    by_cases h1 : fd.status ≠ "active"
    · simpa [h1, stateOf] using h
    · rw [if_neg h1]
      by_cases h2 : now < fd.maturity_date
      · simpa [h2, stateOf] using h
      · rw [if_neg h2]
        cases ha : s.accounts.lookup u with
        | none => simpa [stateOf] using h
        | some a =>
          have h0 : 0 ≤ a.balance := h (u, a) (mem_of_lookup ha)
          have hlk := lookup_dictSet_self s.accounts u
            { a with balance := a.balance + fd.maturity_amount }
          simp only [record_transaction, hlk, stateOf]
          exact nonneg_dictSet h (show 0 ≤ a.balance + fd.maturity_amount by omega)

/-- Claim C1, as stated, is false on the code: a sender with balance 100 can
initiate two transfers of 60 (each validated at initiation), confirm both
(`confirm_transfer` never re-checks funds), and end with balance -20 < 0. -/
theorem C1_counterexample : C1cexFinal = some (-20) := by decide

/-- Claim C1 (amended): account creation with a non-negative initial
deposit, deposits, withdrawals, transfer initiation, loan application, loan
payment, fixed-deposit creation and fixed-deposit closure (of a deposit
whose stored maturity amount is non-negative, as every deposit created by
`create_fixed_deposit` is) all preserve non-negativity of every account
balance, and so does confirming a transfer whose pending amount is
non-negative and still within the sender's balance at confirmation time; but
because `confirm_transfer` does not re-check funds, confirmation in general
does not preserve the invariant (see the counterexample). -/
theorem C1_balance_nonneg :
    (∀ s username password email d aid tid now, 0 ≤ d → AccNonneg s →
      AccNonneg (stateOf (create_account s username password email d aid tid now) s))
    ∧ (∀ s u amt tid now, AccNonneg s →
        AccNonneg (stateOf (deposit s u amt tid now) s))
    ∧ (∀ s u amt tid now, AccNonneg s →
        AccNonneg (stateOf (withdraw s u amt tid now) s))
    ∧ (∀ s su ru raid amt d tid now, AccNonneg s →
        AccNonneg (stateOf (initiate_transfer s su ru raid amt d tid now) s))
    ∧ (∀ s tid txid now, s.transfer_data.lookup tid = none → AccNonneg s →
        AccNonneg (stateOf (confirm_transfer s tid txid now) s))
    ∧ (∀ s tid txid now t sa ra, s.transfer_data.lookup tid = some t →
        t.sender ≠ t.recipient →
        s.accounts.lookup t.sender = some sa →
        s.accounts.lookup t.recipient = some ra →
        0 ≤ t.amount → t.amount ≤ sa.balance → AccNonneg s →
        AccNonneg (stateOf (confirm_transfer s tid txid now) s))
    ∧ (∀ s u amt m lid tid now, AccNonneg s →
        AccNonneg (stateOf (apply_for_loan s u amt m lid tid now) s))
    ∧ (∀ s u lid amt tid now, AccNonneg s →
        AccNonneg (stateOf (make_loan_payment s u lid amt tid now) s))
    ∧ (∀ s u amt m fid tid now, AccNonneg s →
        AccNonneg (stateOf (create_fixed_deposit s u amt m fid tid now) s))
    ∧ (∀ s u fid tid now,
        (match ((s.fixed_deposits.lookup u).getD []).lookup fid with
         | some fd => 0 ≤ fd.maturity_amount
         | none => True) → AccNonneg s →
        AccNonneg (stateOf (close_fixed_deposit s u fid tid now) s)) :=
  ⟨fun s u p e d aid tid now hd h => create_account_nonneg s u p e d aid tid now hd h,
   fun s u amt tid now h => deposit_nonneg s u amt tid now h,
   fun s u amt tid now h => withdraw_nonneg s u amt tid now h,
   fun s su ru raid amt d tid now h => initiate_transfer_nonneg s su ru raid amt d tid now h,
   fun s tid txid now ht h => confirm_transfer_unknown_nonneg s tid txid now ht h,
   fun s tid txid now t sa ra ht hne hsa hra h0 h1 h =>
     confirm_transfer_nonneg s tid txid now t sa ra ht hne hsa hra h0 h1 h,
   fun s u amt m lid tid now h => apply_for_loan_nonneg s u amt m lid tid now h,
   fun s u lid amt tid now h => make_loan_payment_nonneg s u lid amt tid now h,
   fun s u amt m fid tid now h => create_fixed_deposit_nonneg s u amt m fid tid now h,
   fun s u fid tid now hm h => close_fixed_deposit_nonneg s u fid tid now hm h⟩

/-- Witness for C1: the amended claim applied to a concrete in-funds
confirmation. -/
theorem C1_witness :
    AccNonneg (stateOf (confirm_transfer C1wStart "tw" "TX" 7) C1wStart) :=
  C1_balance_nonneg.2.2.2.2.2.1 C1wStart "tw" "TX" 7
    ⟨"carol", "dave", "D1", 30, 0, none⟩ (mkAccount 80 0 "C1" "carol@mail.com")
    (mkAccount 5 0 "D1" "dave@mail.com") (by decide) (by decide) (by decide)
    (by decide) (by decide) (by decide) (by unfold AccNonneg; decide)

/-- Claim C2: a successful confirmation of a pending transfer (staged
between two distinct existing accounts, as `initiate_transfer` guarantees)
debits the sender by exactly the amount, credits the recipient by exactly
the amount, and appends one Transfer Out record for the sender and one
Transfer In record for the recipient, both carrying the same transaction
id `txid`. -/
theorem C2_confirm_effects (s : BankState) (tid txid : String) (now : ℤ)
    (t : PendingTransfer) (sa ra : Account)
    (ht : s.transfer_data.lookup tid = some t)
    (hne : t.sender ≠ t.recipient)
    (hsa : s.accounts.lookup t.sender = some sa)
    (hra : s.accounts.lookup t.recipient = some ra) :
    ∃ s' msg, confirm_transfer s tid txid now = some (s', true, msg)
      ∧ bal s' t.sender = sa.balance - t.amount
      ∧ bal s' t.recipient = ra.balance + t.amount
      ∧ txs s' t.sender = txs s t.sender ++
          [⟨"Transfer Out", t.amount, now, sa.balance - t.amount, txid, t.description⟩]
      ∧ txs s' t.recipient = txs s t.recipient ++
          [⟨"Transfer In", t.amount, now, ra.balance + t.amount, txid, t.description⟩] := by
  have hne' : t.recipient ≠ t.sender := Ne.symm hne
  have e1 : (dictSet s.accounts t.sender
      { sa with balance := sa.balance - t.amount }).lookup t.recipient = some ra :=
    (lookup_dictSet_ne _ _ _ _ hne').trans hra
  have e2 : (dictSet (dictSet s.accounts t.sender
      { sa with balance := sa.balance - t.amount }) t.recipient
      { ra with balance := ra.balance + t.amount }).lookup t.sender =
      some { sa with balance := sa.balance - t.amount } :=
    (lookup_dictSet_ne _ _ _ _ hne).trans (lookup_dictSet_self _ _ _)
  have e3 : (dictSet (dictSet s.accounts t.sender
      { sa with balance := sa.balance - t.amount }) t.recipient
      { ra with balance := ra.balance + t.amount }).lookup t.recipient =
      some { ra with balance := ra.balance + t.amount } :=
    lookup_dictSet_self _ _ _
  have f1 : (dictSet s.transactions t.sender
      ((s.transactions.lookup t.sender).getD [] ++
        [⟨"Transfer Out", t.amount, now, sa.balance - t.amount, txid, t.description⟩])).lookup
      t.recipient = s.transactions.lookup t.recipient :=
    lookup_dictSet_ne _ _ _ _ hne'
  have heq : confirm_transfer s tid txid now = some
      ({ s with
          accounts := (dictSet (dictSet s.accounts t.sender
            { sa with balance := sa.balance - t.amount }) t.recipient
            { ra with balance := ra.balance + t.amount }),
          transactions := (dictSet (dictSet s.transactions t.sender
            ((s.transactions.lookup t.sender).getD [] ++
              [⟨"Transfer Out", t.amount, now, sa.balance - t.amount, txid, t.description⟩]))
            t.recipient
            ((s.transactions.lookup t.recipient).getD [] ++
              [⟨"Transfer In", t.amount, now, ra.balance + t.amount, txid, t.description⟩])),
          transfer_data := dictDel s.transfer_data tid },
        true,
        "Transferred $" ++ toString t.amount ++ " to " ++ t.recipient ++
          " successfully. Transaction ID: " ++ txid) := by
    simp only [confirm_transfer, ht, hsa, e1, record_transaction, e2, e3, f1]
  refine ⟨_, _, heq, ?_, ?_, ?_, ?_⟩
  · simp [bal, e2]
  · simp [bal, e3]
  · have g1 : (dictSet (dictSet s.transactions t.sender
        ((s.transactions.lookup t.sender).getD [] ++
          [⟨"Transfer Out", t.amount, now, sa.balance - t.amount, txid, t.description⟩]))
        t.recipient
        ((s.transactions.lookup t.recipient).getD [] ++
          [⟨"Transfer In", t.amount, now, ra.balance + t.amount, txid, t.description⟩])).lookup
        t.sender = some ((s.transactions.lookup t.sender).getD [] ++
          [⟨"Transfer Out", t.amount, now, sa.balance - t.amount, txid, t.description⟩]) :=
      (lookup_dictSet_ne _ _ _ _ hne).trans (lookup_dictSet_self _ _ _)
    simp [txs, g1]
  · have g2 : (dictSet (dictSet s.transactions t.sender
        ((s.transactions.lookup t.sender).getD [] ++
          [⟨"Transfer Out", t.amount, now, sa.balance - t.amount, txid, t.description⟩]))
        t.recipient
        ((s.transactions.lookup t.recipient).getD [] ++
          [⟨"Transfer In", t.amount, now, ra.balance + t.amount, txid, t.description⟩])).lookup
        t.recipient = some ((s.transactions.lookup t.recipient).getD [] ++
          [⟨"Transfer In", t.amount, now, ra.balance + t.amount, txid, t.description⟩]) :=
      lookup_dictSet_self _ _ _
    simp [txs, g2]

/-- Witness for C2 at a concrete staged transfer. -/
theorem C2_witness :
    ∃ s' msg, confirm_transfer C2wStart "t2w" "TXW" 9 = some (s', true, msg)
      ∧ bal s' "erin" = 70 - 20
      ∧ bal s' "frank" = 10 + 20
      ∧ txs s' "erin" = txs C2wStart "erin" ++
          [⟨"Transfer Out", 20, 9, 70 - 20, "TXW", none⟩]
      ∧ txs s' "frank" = txs C2wStart "frank" ++
          [⟨"Transfer In", 20, 9, 10 + 20, "TXW", none⟩] :=
  C2_confirm_effects C2wStart "t2w" "TXW" 9 ⟨"erin", "frank", "F1", 20, 0, none⟩
    (mkAccount 70 0 "E1" "erin@mail.com") (mkAccount 10 0 "F1" "frank@mail.com")
    (by decide) (by decide) (by decide) (by decide)

theorem confirm_true_transfer_data (s s' : BankState) (tid txid msg : String)
    (now : ℤ) (h : confirm_transfer s tid txid now = some (s', true, msg)) :
    s'.transfer_data = dictDel s.transfer_data tid := by
  unfold confirm_transfer at h
  cases ht : s.transfer_data.lookup tid with
  | none => rw [ht] at h; simp at h
  | some t =>
    rw [ht] at h
    dsimp only at h
    cases hsa : s.accounts.lookup t.sender with
    | none => rw [hsa] at h; simp at h
    | some sa =>
      rw [hsa] at h
      dsimp only at h
      cases hra : (dictSet s.accounts t.sender
          { sa with balance := sa.balance - t.amount }).lookup t.recipient with
      | none => rw [hra] at h; simp at h
      | some ra =>
        rw [hra] at h
        dsimp only at h
        unfold record_transaction at h
        cases hr1 : (dictSet (dictSet s.accounts t.sender
            { sa with balance := sa.balance - t.amount }) t.recipient
            { ra with balance := ra.balance + t.amount }).lookup t.sender with
        | none => rw [hr1] at h; simp at h
        | some a1 =>
          rw [hr1] at h
          dsimp only at h
          cases hr2 : (dictSet (dictSet s.accounts t.sender
              { sa with balance := sa.balance - t.amount }) t.recipient
              { ra with balance := ra.balance + t.amount }).lookup t.recipient with
          | none => rw [hr2] at h; simp at h
          | some a2 =>
            rw [hr2] at h
            dsimp only at h
            simp only [Option.some.injEq, Prod.mk.injEq] at h
            obtain ⟨hS, -, -⟩ := h
            rw [← hS]

/-- Claim C3: confirming an id that is not stored as a pending transfer
fails with the unknown-transfer message and leaves the state unchanged, and
a successful confirmation deletes the pending entry, so confirming the same
id again fails with the unknown-transfer message and leaves the state
unchanged. -/
theorem C3_confirm_consumes (s : BankState) (tid txid : String) (now : ℤ) :
    (s.transfer_data.lookup tid = none →
      confirm_transfer s tid txid now = some (s, false, "Invalid transfer request"))
    ∧ (∀ s' msg txid2 now2, confirm_transfer s tid txid now = some (s', true, msg) →
        s'.transfer_data.lookup tid = none
        ∧ confirm_transfer s' tid txid2 now2 =
            some (s', false, "Invalid transfer request")) := by
  constructor
  · intro hn
    simp [confirm_transfer, hn]
  · intro s' msg txid2 now2 h
    have hdel := confirm_true_transfer_data s s' tid txid msg now h
    have hnone : s'.transfer_data.lookup tid = none := by
      rw [hdel]; exact lookup_dictDel_self _ _
    exact ⟨hnone, by simp [confirm_transfer, hnone]⟩

/-- Witness for C3: an unknown id fails unchanged, and after a successful
confirmation the same id fails unchanged. -/
theorem C3_witness :
    (confirm_transfer C3wStart "zz" "TXa" 1 =
      some (C3wStart, false, "Invalid transfer request"))
    ∧ ((stateOf (confirm_transfer C3wStart "t3w" "TXa" 1) C3wStart).transfer_data.lookup
        "t3w" = none
       ∧ confirm_transfer (stateOf (confirm_transfer C3wStart "t3w" "TXa" 1) C3wStart)
           "t3w" "TXb" 2 =
         some (stateOf (confirm_transfer C3wStart "t3w" "TXa" 1) C3wStart, false,
           "Invalid transfer request")) :=
  ⟨(C3_confirm_consumes C3wStart "zz" "TXa" 1).1 (by decide),
   (C3_confirm_consumes C3wStart "t3w" "TXa" 1).2
     (stateOf (confirm_transfer C3wStart "t3w" "TXa" 1) C3wStart)
     (msgOf (confirm_transfer C3wStart "t3w" "TXa" 1)) "TXb" 2 (by decide)⟩

/-- Claim C4 is the intended behaviour (the source comments the check with
`# 1 hour lock`), but the code is wrong: it compares `timedelta.seconds` —
the day-wrapped seconds component of the elapsed time — with 3600, so one
full day (86400 s) after the fifth failure a correct-password attempt is
still rejected as locked (wrapped elapsed 0 < 3600), although 3600 seconds
after the fifth failure it succeeds as the claim says. -/
theorem C4_lockout_wraps :
    authenticate C4state "bob" "Passw0rd!" 87400 =
      some (C4state, false,
        "Account locked due to too many failed attempts. Try again later.")
    ∧ msgOf (authenticate C4state "bob" "Passw0rd!" 4600) = "Login successful" :=
  ⟨by decide, by decide⟩

/-- Claim C5: for an existing account, `make_loan_payment` reports exactly
the first failing check in the spec's precedence order and leaves the state
unchanged on failure; when every check passes it succeeds. -/
theorem C5_payment_precedence (s : BankState) (u lid tid : String)
    (amt now : ℤ) (a : Account) (ha : s.accounts.lookup u = some a) :
    (∀ msg, loanPaymentSpecError s u lid amt = some msg →
      make_loan_payment s u lid amt tid now = some (s, false, msg))
    ∧ (loanPaymentSpecError s u lid amt = none →
      ∃ s' msg, make_loan_payment s u lid amt tid now = some (s', true, msg)) := by
  have hbal : bal s u = a.balance := by simp [bal, ha]
  constructor
  · intro msg hmsg
    unfold loanPaymentSpecError at hmsg
    unfold make_loan_payment
    cases hl : ((s.loans.lookup u).getD []).lookup lid with
    | none =>
      simp only [hl, Option.some.injEq] at hmsg
      simp [hl, hmsg]
    | some loan =>
      simp only [hl] at hmsg
      simp only [hl]
      by_cases h1 : loan.status ≠ "active"
      · simp only [if_pos h1, Option.some.injEq] at hmsg
        simp [h1, hmsg]
      · rw [if_neg h1] at hmsg
        rw [if_neg h1]
        by_cases h2 : amt ≤ 0
        · simp only [if_pos h2, Option.some.injEq] at hmsg
          simp [h2, hmsg]
        · rw [if_neg h2] at hmsg
          rw [if_neg h2]
          simp only [ha]
          rw [hbal] at hmsg
          by_cases h3 : a.balance < amt
          · simp only [if_pos h3, Option.some.injEq] at hmsg
            simp [h3, hmsg]
          · rw [if_neg h3] at hmsg
            rw [if_neg h3]
            by_cases h4 : amt < loan.monthly_payment
            · simp only [if_pos h4, Option.some.injEq] at hmsg
              simp [h4, hmsg]
            · rw [if_neg h4] at hmsg
              exact absurd hmsg (by simp)
  · intro hnone
    unfold loanPaymentSpecError at hnone
    unfold make_loan_payment
    cases hl : ((s.loans.lookup u).getD []).lookup lid with
    | none => simp [hl] at hnone
    | some loan =>
      simp only [hl] at hnone
      simp only [hl]
      by_cases h1 : loan.status ≠ "active"
      · simp [if_pos h1] at hnone
      · rw [if_neg h1] at hnone
        rw [if_neg h1]
        by_cases h2 : amt ≤ 0
        · simp [if_pos h2] at hnone
        · rw [if_neg h2] at hnone
          rw [if_neg h2]
          simp only [ha]
          rw [hbal] at hnone
          by_cases h3 : a.balance < amt
          · simp [if_pos h3] at hnone
          · rw [if_neg h3] at hnone
            rw [if_neg h3]
            by_cases h4 : amt < loan.monthly_payment
            · simp [if_pos h4] at hnone
            · rw [if_neg h4]
              have hrec := lookup_dictSet_self s.accounts u
                { a with balance := a.balance - amt }
              simp only [record_transaction, hrec]
              exact ⟨_, _, rfl⟩

/-- Witness for C5: a below-minimum payment reports the below-minimum
message with the state unchanged, and a payment passing every check
succeeds. -/
theorem C5_witness :
    make_loan_payment C5wStart "ivy" "L5" 3 "T5" 9 =
      some (C5wStart, false, "Minimum payment required: $9")
    ∧ ∃ s' msg, make_loan_payment C5wStart "ivy" "L5" 20 "T5" 9 =
        some (s', true, msg) :=
  ⟨(C5_payment_precedence C5wStart "ivy" "L5" "T5" 3 9
      (mkAccount 50 0 "I1" "ivy@mail.com") (by decide)).1 _ (by decide),
   (C5_payment_precedence C5wStart "ivy" "L5" "T5" 20 9
      (mkAccount 50 0 "I1" "ivy@mail.com") (by decide)).2 (by decide)⟩

/-- Claim C6: a successful loan application for principal `amount` over
`duration_months` months stores a monthly payment of
round(amount × (1 + 0.05) / months) — Python's banker rounding on the exact
value — initialises the remaining balance to amount × (1 + 0.05)
independent of the duration (flat add-on), and credits the account with
exactly `amount`. -/
theorem C6_loan_terms (s : BankState) (u : String)
    (amount duration_months : ℤ) (lid tid : String) (now : ℤ) (a : Account)
    (ha : s.accounts.lookup u = some a)
    (hamt : 0 < amount) (hdur : 0 < duration_months)
    (hage : ¬ (now - a.created).fdiv 86400 < 90)
    (hnoact : ¬ ((s.loans.lookup u).getD []).any
        (fun p => p.2.status == "active") = true)
    (hfresh : ((s.loans.lookup u).getD []).lookup lid = none) :
    ∃ s' msg, apply_for_loan s u amount duration_months lid tid now =
        some (s', true, msg)
      ∧ ((s'.loans.lookup u).getD []).lookup lid = some
          ⟨amount, duration_months, LOAN_INTEREST_RATE,
            pyRound ((amount : ℚ) * (1 + 5/100) / (duration_months : ℚ)),
            (amount : ℚ) * (1 + 5/100), now, "active", 0, none⟩
      ∧ bal s' u = a.balance + amount := by
  have hrec := lookup_dictSet_self s.accounts u
    { a with balance := a.balance + amount }
  have heq : apply_for_loan s u amount duration_months lid tid now = some
      ({ s with
          loans := (dictSet s.loans u (((s.loans.lookup u).getD []) ++
            [(lid, ⟨amount, duration_months, LOAN_INTEREST_RATE,
              calculate_monthly_payment amount duration_months,
              (amount : ℚ) * (1 + LOAN_INTEREST_RATE), now, "active", 0, none⟩)])),
          accounts := (dictSet s.accounts u { a with balance := a.balance + amount }),
          transactions := (dictSet s.transactions u
            ((s.transactions.lookup u).getD [] ++
              [⟨"Loan Disbursement", amount, now, a.balance + amount, tid,
                some ("Loan ID: " ++ lid)⟩])) },
        true,
        "Loan approved! $" ++ toString amount ++
          " has been deposited to your account. Loan ID: " ++ lid) := by
    unfold apply_for_loan
    rw [if_neg (show ¬ amount ≤ 0 by omega)]
    rw [if_neg (show ¬ duration_months ≤ 0 by omega)]
    simp only [ha]
    rw [if_neg hage, if_neg hnoact]
    simp only [record_transaction, hrec]
  refine ⟨_, _, heq, ?_, ?_⟩
  · have g1 := lookup_dictSet_self s.loans u (((s.loans.lookup u).getD []) ++
      [(lid, (⟨amount, duration_months, LOAN_INTEREST_RATE,
        calculate_monthly_payment amount duration_months,
        (amount : ℚ) * (1 + LOAN_INTEREST_RATE), now, "active", 0, none⟩ : Loan))])
    simp only [g1, Option.getD_some]
    rw [lookup_append_none _ _ _ hfresh]
    simp [List.lookup_cons_self, calculate_monthly_payment, LOAN_INTEREST_RATE]
  · simp [bal, hrec]

/-- Witness for C6: the spec's own example — principal 1200 over 12 months
gives monthly payment 105 and initial remaining balance 1260 — together
with the claim applied to that concrete application. -/
theorem C6_witness :
    calculate_monthly_payment 1200 12 = 105
    ∧ (1200 : ℚ) * (1 + LOAN_INTEREST_RATE) = 1260
    ∧ ∃ s' msg, apply_for_loan C6wStart "judy" 1200 12 "L6" "T6" 7776000 =
        some (s', true, msg)
      ∧ ((s'.loans.lookup "judy").getD []).lookup "L6" = some
          ⟨1200, 12, LOAN_INTEREST_RATE,
            pyRound ((1200 : ℚ) * (1 + 5/100) / (12 : ℚ)),
            (1200 : ℚ) * (1 + 5/100), 7776000, "active", 0, none⟩
      ∧ bal s' "judy" = 0 + 1200 :=
  ⟨by norm_num [calculate_monthly_payment, pyRound, LOAN_INTEREST_RATE],
   by norm_num [LOAN_INTEREST_RATE],
   C6_loan_terms C6wStart "judy" 1200 12 "L6" "T6" 7776000
     (mkAccount 0 0 "J1" "judy@mail.com") (by decide) (by decide) (by decide)
     (by decide) (by decide) (by decide)⟩

/-- Claim C7: for a stored active fixed deposit of an existing account,
closing strictly before the maturity date fails with the not-matured
message and leaves the state unchanged; closing at or after the maturity
date succeeds, credits the stored maturity amount, marks the deposit
closed, and every later close of the same deposit fails with the
not-active message and leaves the state unchanged.  Moreover every deposit
stored by a successful `create_fixed_deposit` carries maturity amount
round(principal × (1 + 0.07 × months/12)). -/
theorem C7_fd_lifecycle (s : BankState) (u fd_id tid : String) (now : ℤ)
    (fd : FixedDeposit) (a : Account)
    (hfd : ((s.fixed_deposits.lookup u).getD []).lookup fd_id = some fd)
    (hact : fd.status = "active")
    (ha : s.accounts.lookup u = some a) :
    (now < fd.maturity_date →
      close_fixed_deposit s u fd_id tid now =
        some (s, false, "Fixed deposit has not matured yet"))
    ∧ (fd.maturity_date ≤ now →
      ∃ s' msg, close_fixed_deposit s u fd_id tid now = some (s', true, msg)
        ∧ bal s' u = a.balance + fd.maturity_amount
        ∧ ((s'.fixed_deposits.lookup u).getD []).lookup fd_id =
            some { fd with status := "closed", closed_date := some now }
        ∧ ∀ tid2 now2, close_fixed_deposit s' u fd_id tid2 now2 =
            some (s', false, "Fixed deposit is not active"))
    ∧ (∀ s2 amt m fid2 tid2 now2 a2,
        s2.accounts.lookup u = some a2 →
        0 < amt → 0 < m → amt ≤ a2.balance →
        ((s2.fixed_deposits.lookup u).getD []).lookup fid2 = none →
        ∃ s2' msg2, create_fixed_deposit s2 u amt m fid2 tid2 now2 =
            some (s2', true, msg2)
          ∧ ((s2'.fixed_deposits.lookup u).getD []).lookup fid2 = some
              ⟨amt, m, FIXED_DEPOSIT_INTEREST,
                pyRound ((amt : ℚ) * (1 + 7/100 * ((m : ℚ) / 12))),
                now2, now2 + 86400 * (30 * m), "active", none⟩) := by
  have hstat : ¬ fd.status ≠ "active" := by simp [hact]
  refine ⟨?_, ?_, ?_⟩
  · intro hlt
    unfold close_fixed_deposit
    simp only [hfd]
    rw [if_neg hstat, if_pos hlt]
  · intro hge
    have hrec := lookup_dictSet_self s.accounts u
      { a with balance := a.balance + fd.maturity_amount }
    have heq : close_fixed_deposit s u fd_id tid now = some
        ({ s with
            accounts := (dictSet s.accounts u
              { a with balance := a.balance + fd.maturity_amount }),
            transactions := (dictSet s.transactions u
              ((s.transactions.lookup u).getD [] ++
                [⟨"Fixed Deposit Maturity", fd.maturity_amount, now,
                  a.balance + fd.maturity_amount, tid, some ("FD ID: " ++ fd_id)⟩])),
            fixed_deposits := (dictSet s.fixed_deposits u
              (dictSet ((s.fixed_deposits.lookup u).getD []) fd_id
                { fd with status := "closed", closed_date := some now })) },
          true,
          "Fixed deposit " ++ fd_id ++ " closed. $" ++ toString fd.maturity_amount ++
            " credited to your account") := by
      unfold close_fixed_deposit
      simp only [hfd]
      rw [if_neg hstat, if_neg (not_lt.mpr hge)]
      simp only [ha, record_transaction, hrec]
    have g1 := lookup_dictSet_self s.fixed_deposits u
      (dictSet ((s.fixed_deposits.lookup u).getD []) fd_id
        { fd with status := "closed", closed_date := some now })
    refine ⟨_, _, heq, ?_, ?_, ?_⟩
    · simp [bal, hrec]
    · simp only [g1, Option.getD_some]
      exact lookup_dictSet_self _ _ _
    · intro tid2 now2
      unfold close_fixed_deposit
      simp only [g1, Option.getD_some, lookup_dictSet_self]
      rw [if_pos (show ("closed" : String) ≠ "active" by decide)]
  · intro s2 amt m fid2 tid2 now2 a2 ha2 hamt hm hfunds hfresh2
    have hrec2 := lookup_dictSet_self s2.accounts u
      { a2 with balance := a2.balance - amt }
    have heq2 : create_fixed_deposit s2 u amt m fid2 tid2 now2 = some
        ({ s2 with
            fixed_deposits := (dictSet s2.fixed_deposits u
              (((s2.fixed_deposits.lookup u).getD []) ++
                [(fid2, ⟨amt, m, FIXED_DEPOSIT_INTEREST,
                  calculate_maturity_amount amt m,
                  now2, now2 + 86400 * (30 * m), "active", none⟩)])),
            accounts := (dictSet s2.accounts u { a2 with balance := a2.balance - amt }),
            transactions := (dictSet s2.transactions u
              ((s2.transactions.lookup u).getD [] ++
                [⟨"Fixed Deposit Creation", amt, now2, a2.balance - amt, tid2,
                  some ("FD ID: " ++ fid2)⟩])) },
          true, "Fixed deposit created successfully! FD ID: " ++ fid2) := by
      unfold create_fixed_deposit
      rw [if_neg (show ¬ amt ≤ 0 by omega)]
      rw [if_neg (show ¬ m ≤ 0 by omega)]
      simp only [ha2]
      rw [if_neg (show ¬ a2.balance < amt by omega)]
      simp only [record_transaction, hrec2]
    have g2 := lookup_dictSet_self s2.fixed_deposits u
      (((s2.fixed_deposits.lookup u).getD []) ++
        [(fid2, (⟨amt, m, FIXED_DEPOSIT_INTEREST, calculate_maturity_amount amt m,
          now2, now2 + 86400 * (30 * m), "active", none⟩ : FixedDeposit))])
    refine ⟨_, _, heq2, ?_⟩
    simp only [g2, Option.getD_some]
    rw [lookup_append_none _ _ _ hfresh2]
    simp [List.lookup_cons_self, calculate_maturity_amount, FIXED_DEPOSIT_INTEREST]

/-- Witness for C7: closing early fails unchanged; closing at maturity
credits 1070, marks the deposit closed, and repeat closes fail. -/
theorem C7_witness :
    (close_fixed_deposit C7wStart "kate" "F7" "T7" 5 =
      some (C7wStart, false, "Fixed deposit has not matured yet"))
    ∧ ∃ s' msg, close_fixed_deposit C7wStart "kate" "F7" "T7b" 31104000 =
        some (s', true, msg)
      ∧ bal s' "kate" = 10 + 1070
      ∧ ((s'.fixed_deposits.lookup "kate").getD []).lookup "F7" =
          some ⟨1000, 12, 0, 1070, 0, 31104000, "closed", some 31104000⟩
      ∧ ∀ tid2 now2, close_fixed_deposit s' "kate" "F7" tid2 now2 =
          some (s', false, "Fixed deposit is not active") :=
  ⟨(C7_fd_lifecycle C7wStart "kate" "F7" "T7" 5
      ⟨1000, 12, 0, 1070, 0, 31104000, "active", none⟩
      (mkAccount 10 0 "K1" "kate@mail.com")
      (by decide) (by decide) (by decide)).1 (by decide),
   (C7_fd_lifecycle C7wStart "kate" "F7" "T7b" 31104000
      ⟨1000, 12, 0, 1070, 0, 31104000, "active", none⟩
      (mkAccount 10 0 "K1" "kate@mail.com")
      (by decide) (by decide) (by decide)).2.1 (by decide)⟩

/-- Claim C8 is false on the code: the Cancel branch of `dashboard` only
clears the confirmation flag, the pending entry survives in
`transfer_data`, and a later confirmation of the cancelled id still
succeeds and moves the funds (60 - 25 = 35). -/
theorem C8_counterexample :
    (cancel_transfer C8cexStart).transfer_data.lookup "t8" =
      some ⟨"leo", "mia", "M1", 25, 0, none⟩
    ∧ okOf (confirm_transfer (cancel_transfer C8cexStart) "t8" "TX8" 3) = true
    ∧ bal (stateOf (confirm_transfer (cancel_transfer C8cexStart) "t8" "TX8" 3)
        (cancel_transfer C8cexStart)) "leo" = 35 := by
  exact ⟨by decide, by decide, by decide⟩

/-- Claim C8 (amended): cancel resets only the confirmation flag — account
balances, transaction histories and the pending-transfer table are
unchanged — so it has no balance side effects, but it does not discard the
pending entry, and a subsequent confirmation of the cancelled id (staged
between distinct existing accounts) still succeeds. -/
theorem C8_cancel_keeps_pending (s : BankState) :
    (cancel_transfer s).accounts = s.accounts
    ∧ (cancel_transfer s).transactions = s.transactions
    ∧ (cancel_transfer s).transfer_data = s.transfer_data
    ∧ (cancel_transfer s).transfer_confirmation = false
    ∧ ∀ tid txid now t sa ra,
        s.transfer_data.lookup tid = some t →
        t.sender ≠ t.recipient →
        s.accounts.lookup t.sender = some sa →
        s.accounts.lookup t.recipient = some ra →
        ∃ s' msg, confirm_transfer (cancel_transfer s) tid txid now =
          some (s', true, msg) := by
  refine ⟨rfl, rfl, rfl, rfl, ?_⟩
  intro tid txid now t sa ra ht hne hsa hra
  have hne' : t.recipient ≠ t.sender := Ne.symm hne
  have e1 : (dictSet s.accounts t.sender
      { sa with balance := sa.balance - t.amount }).lookup t.recipient = some ra :=
    (lookup_dictSet_ne _ _ _ _ hne').trans hra
  have e2 : (dictSet (dictSet s.accounts t.sender
      { sa with balance := sa.balance - t.amount }) t.recipient
      { ra with balance := ra.balance + t.amount }).lookup t.sender =
      some { sa with balance := sa.balance - t.amount } :=
    (lookup_dictSet_ne _ _ _ _ hne).trans (lookup_dictSet_self _ _ _)
  have e3 : (dictSet (dictSet s.accounts t.sender
      { sa with balance := sa.balance - t.amount }) t.recipient
      { ra with balance := ra.balance + t.amount }).lookup t.recipient =
      some { ra with balance := ra.balance + t.amount } :=
    lookup_dictSet_self _ _ _
  simp only [confirm_transfer, cancel_transfer, ht, hsa, e1,
    record_transaction, e2, e3]
  exact ⟨_, _, rfl⟩

/-- Witness for C8 at the concrete cancel scenario. -/
theorem C8_witness :
    (cancel_transfer C8cexStart).accounts = C8cexStart.accounts
    ∧ (cancel_transfer C8cexStart).transactions = C8cexStart.transactions
    ∧ (cancel_transfer C8cexStart).transfer_data = C8cexStart.transfer_data
    ∧ (cancel_transfer C8cexStart).transfer_confirmation = false
    ∧ ∃ s' msg, confirm_transfer (cancel_transfer C8cexStart) "t8" "TX8" 3 =
        some (s', true, msg) :=
  ⟨(C8_cancel_keeps_pending C8cexStart).1,
   (C8_cancel_keeps_pending C8cexStart).2.1,
   (C8_cancel_keeps_pending C8cexStart).2.2.1,
   (C8_cancel_keeps_pending C8cexStart).2.2.2.1,
   (C8_cancel_keeps_pending C8cexStart).2.2.2.2 "t8" "TX8" 3
     ⟨"leo", "mia", "M1", 25, 0, none⟩ (mkAccount 60 0 "L1" "leo@mail.com")
     (mkAccount 0 0 "M1" "mia@mail.com") (by decide) (by decide) (by decide)
     (by decide)⟩

theorem accurate_rfl (s : BankState) : AccurateFrom s s :=
  fun _ _ hm => Or.inl hm

theorem record_accurate (s0 s s' : BankState) (u0 ty : String) (amt : ℤ)
    (tid : String) (d : Option String) (now : ℤ)
    (h : record_transaction s u0 ty amt tid d now = some s')
    (hacc : AccurateFrom s0 s) :
    AccurateFrom s0 s' := by
  unfold record_transaction at h
  cases ha : s.accounts.lookup u0 with
  | none => rw [ha] at h; simp at h
  | some a =>
    rw [ha] at h
    dsimp only at h
    simp only [Option.some.injEq] at h
    subst h
    intro u tx hm
    by_cases hu : u = u0
    · subst hu
      have hl := lookup_dictSet_self s.transactions u
        ((s.transactions.lookup u).getD [] ++ [⟨ty, amt, now, a.balance, tid, d⟩])
      unfold txs at hm
      dsimp only at hm
      rw [hl] at hm
      simp only [Option.getD_some] at hm
      rcases List.mem_append.mp hm with h1 | h2
      · rcases hacc u tx h1 with h3 | h4
        · exact Or.inl h3
        · exact Or.inr h4
      · right
        have htx : tx = ⟨ty, amt, now, a.balance, tid, d⟩ := by simpa using h2
        rw [htx]
        show a.balance = bal s u
        simp [bal, ha]
    · have hl := lookup_dictSet_ne s.transactions u0 u
        ((s.transactions.lookup u0).getD [] ++ [⟨ty, amt, now, a.balance, tid, d⟩]) hu
      unfold txs at hm
      dsimp only at hm
      rw [hl] at hm
      exact hacc u tx hm

theorem create_account_accurate (s : BankState) (username password email : String)
    (d : ℤ) (aid tid : String) (now : ℤ) :
    AccurateFrom s (stateOf (create_account s username password email d aid tid now) s) := by
  unfold create_account
  by_cases h1 : (s.accounts.lookup username).isSome
  · rw [if_pos h1]; exact accurate_rfl s
  · rw [if_neg h1]
    by_cases h2 : s.accounts.any (fun p => p.2.email == email) = true
    · rw [if_pos h2]; exact accurate_rfl s
    · rw [if_neg h2]
      dsimp only
      by_cases h3 : 0 < d
      · rw [if_pos h3]
        cases hr : record_transaction
            { s with accounts := (dictSet s.accounts username
                (⟨hash_password password, d, now, aid, email, none, "standard",
                  "active"⟩ : Account)) }
            username "Account Creation Deposit" d tid none now with
        | none => exact accurate_rfl s
        | some s2 =>
          exact record_accurate s _ s2 username "Account Creation Deposit" d tid
            none now hr (fun u tx hm => Or.inl hm)
      · rw [if_neg h3]
        exact fun u tx hm => Or.inl hm

theorem deposit_accurate (s : BankState) (u : String) (amt : ℤ) (tid : String)
    (now : ℤ) : AccurateFrom s (stateOf (deposit s u amt tid now) s) := by
  unfold deposit
  by_cases h1 : amt ≤ 0
  · rw [if_pos h1]; exact accurate_rfl s
  · rw [if_neg h1]
    cases ha : s.accounts.lookup u with
    | none => exact accurate_rfl s
    | some a =>
      dsimp only
      cases hr : record_transaction
          { s with accounts := dictSet s.accounts u { a with balance := a.balance + amt } }
          u "Deposit" amt tid none now with
      | none => exact accurate_rfl s
      | some s2 =>
        exact record_accurate s _ s2 u "Deposit" amt tid none now hr
          (fun u tx hm => Or.inl hm)

theorem withdraw_accurate (s : BankState) (u : String) (amt : ℤ) (tid : String)
    (now : ℤ) : AccurateFrom s (stateOf (withdraw s u amt tid now) s) := by
  unfold withdraw
  by_cases h1 : amt ≤ 0
  · rw [if_pos h1]; exact accurate_rfl s
  · rw [if_neg h1]
    cases ha : s.accounts.lookup u with
    | none => exact accurate_rfl s
    | some a =>
      dsimp only
      by_cases h2 : a.balance < amt
      · rw [if_pos h2]; exact accurate_rfl s
      · rw [if_neg h2]
        cases hr : record_transaction
            { s with accounts := dictSet s.accounts u { a with balance := a.balance - amt } }
            u "Withdrawal" amt tid none now with
        | none => exact accurate_rfl s
        | some s2 =>
          exact record_accurate s _ s2 u "Withdrawal" amt tid none now hr
            (fun u tx hm => Or.inl hm)

theorem confirm_transfer_accurate (s : BankState) (tid txid : String) (now : ℤ) :
    AccurateFrom s (stateOf (confirm_transfer s tid txid now) s) := by
  unfold confirm_transfer
  cases ht : s.transfer_data.lookup tid with
  | none => exact accurate_rfl s
  | some t =>
    dsimp only
    cases hsa : s.accounts.lookup t.sender with
    | none => exact accurate_rfl s
    | some sa =>
      dsimp only
      cases hra : (dictSet s.accounts t.sender
          { sa with balance := sa.balance - t.amount }).lookup t.recipient with
      | none => exact accurate_rfl s
      | some ra =>
        dsimp only
        cases hr1 : record_transaction
            { s with accounts := (dictSet (dictSet s.accounts t.sender
                { sa with balance := sa.balance - t.amount }) t.recipient
                { ra with balance := ra.balance + t.amount }) }
            t.sender "Transfer Out" t.amount txid t.description now with
        | none => exact accurate_rfl s
        | some s3 =>
          dsimp only
          cases hr2 : record_transaction s3 t.recipient "Transfer In" t.amount
              txid t.description now with
          | none => exact accurate_rfl s
          | some s4 =>
            exact record_accurate s s3 s4 t.recipient "Transfer In" t.amount txid
              t.description now hr2
              (record_accurate s _ s3 t.sender "Transfer Out" t.amount txid
                t.description now hr1 (fun u tx hm => Or.inl hm))

theorem apply_for_loan_accurate (s : BankState) (u : String) (amt m : ℤ)
    (lid tid : String) (now : ℤ) :
    AccurateFrom s (stateOf (apply_for_loan s u amt m lid tid now) s) := by
  unfold apply_for_loan
  by_cases h1 : amt ≤ 0
  · rw [if_pos h1]; exact accurate_rfl s
  · rw [if_neg h1]
    by_cases h2 : m ≤ 0
    · rw [if_pos h2]; exact accurate_rfl s
    · rw [if_neg h2]
      cases ha : s.accounts.lookup u with
      | none => exact accurate_rfl s
      | some a =>
        dsimp only
        by_cases h3 : (now - a.created).fdiv 86400 < 90
        · rw [if_pos h3]; exact accurate_rfl s
        · rw [if_neg h3]
          by_cases h4 : ((s.loans.lookup u).getD []).any
              (fun p => p.2.status == "active") = true
          · rw [if_pos h4]; exact accurate_rfl s
          · rw [if_neg h4]
            cases hr : record_transaction
                { s with
                  loans := (dictSet s.loans u (((s.loans.lookup u).getD []) ++
                    [(lid, ⟨amt, m, LOAN_INTEREST_RATE,
                      calculate_monthly_payment amt m,
                      (amt : ℚ) * (1 + LOAN_INTEREST_RATE), now, "active", 0, none⟩)])),
                  accounts := (dictSet s.accounts u
                    { a with balance := a.balance + amt }) }
                u "Loan Disbursement" amt tid (some ("Loan ID: " ++ lid)) now with
            | none => exact accurate_rfl s
            | some s3 =>
              exact record_accurate s _ s3 u "Loan Disbursement" amt tid
                (some ("Loan ID: " ++ lid)) now hr (fun u tx hm => Or.inl hm)

theorem make_loan_payment_accurate (s : BankState) (u lid : String) (amt : ℤ)
    (tid : String) (now : ℤ) :
    AccurateFrom s (stateOf (make_loan_payment s u lid amt tid now) s) := by
  unfold make_loan_payment
  cases hl : ((s.loans.lookup u).getD []).lookup lid with
  | none => exact accurate_rfl s
  | some loan =>
    dsimp only
    by_cases h1 : loan.status ≠ "active"
    · rw [if_pos h1]; exact accurate_rfl s
    · rw [if_neg h1]
      by_cases h2 : amt ≤ 0
      · rw [if_pos h2]; exact accurate_rfl s
      · rw [if_neg h2]
        cases ha : s.accounts.lookup u with
        | none => exact accurate_rfl s
        | some a =>
          dsimp only
          by_cases h3 : a.balance < amt
          · rw [if_pos h3]; exact accurate_rfl s
          · rw [if_neg h3]
            by_cases h4 : amt < loan.monthly_payment
            · rw [if_pos h4]; exact accurate_rfl s
            · rw [if_neg h4]
              cases hr : record_transaction
                  { s with
                    accounts := (dictSet s.accounts u
                      { a with balance := a.balance - amt }),
                    loans := (dictSet s.loans u
                      (dictSet ((s.loans.lookup u).getD []) lid
                        { loan with
                          remaining_balance := loan.remaining_balance - (amt : ℚ),
                          payments_made := loan.payments_made + 1 })) }
                  u "Loan Payment" amt tid (some ("Loan ID: " ++ lid)) now with
              | none => exact accurate_rfl s
              | some s2 =>
                exact record_accurate s _ s2 u "Loan Payment" amt tid
                  (some ("Loan ID: " ++ lid)) now hr (fun u tx hm => Or.inl hm)

theorem create_fixed_deposit_accurate (s : BankState) (u : String) (amt m : ℤ)
    (fid tid : String) (now : ℤ) :
    AccurateFrom s (stateOf (create_fixed_deposit s u amt m fid tid now) s) := by
  unfold create_fixed_deposit
  by_cases h1 : amt ≤ 0
  · rw [if_pos h1]; exact accurate_rfl s
  · rw [if_neg h1]
    by_cases h2 : m ≤ 0
    · rw [if_pos h2]; exact accurate_rfl s
    · rw [if_neg h2]
      cases ha : s.accounts.lookup u with
      | none => exact accurate_rfl s
      | some a =>
        dsimp only
        by_cases h3 : a.balance < amt
        · rw [if_pos h3]; exact accurate_rfl s
        · rw [if_neg h3]
          cases hr : record_transaction
              { s with
                fixed_deposits := (dictSet s.fixed_deposits u
                  (((s.fixed_deposits.lookup u).getD []) ++
                    [(fid, ⟨amt, m, FIXED_DEPOSIT_INTEREST,
                      calculate_maturity_amount amt m,
                      now, now + 86400 * (30 * m), "active", none⟩)])),
                accounts := (dictSet s.accounts u
                  { a with balance := a.balance - amt }) }
              u "Fixed Deposit Creation" amt tid (some ("FD ID: " ++ fid)) now with
          | none => exact accurate_rfl s
          | some s3 =>
            exact record_accurate s _ s3 u "Fixed Deposit Creation" amt tid
              (some ("FD ID: " ++ fid)) now hr (fun u tx hm => Or.inl hm)

theorem close_fixed_deposit_accurate (s : BankState) (u fid tid : String)
    (now : ℤ) : AccurateFrom s (stateOf (close_fixed_deposit s u fid tid now) s) := by
  unfold close_fixed_deposit
  cases hl : ((s.fixed_deposits.lookup u).getD []).lookup fid with
  | none => exact accurate_rfl s
  | some fd =>
    dsimp only
    by_cases h1 : fd.status ≠ "active"
    · rw [if_pos h1]; exact accurate_rfl s
    · rw [if_neg h1]
      by_cases h2 : now < fd.maturity_date
      · rw [if_pos h2]; exact accurate_rfl s
      · rw [if_neg h2]
        cases ha : s.accounts.lookup u with
        | none => exact accurate_rfl s
        | some a =>
          dsimp only
          cases hr : record_transaction
              { s with accounts := (dictSet s.accounts u
                  { a with balance := a.balance + fd.maturity_amount }) }
              u "Fixed Deposit Maturity" fd.maturity_amount tid
              (some ("FD ID: " ++ fid)) now with
          | none => exact accurate_rfl s
          | some s2 =>
            exact record_accurate s _ s2 u "Fixed Deposit Maturity"
              fd.maturity_amount tid (some ("FD ID: " ++ fid)) now hr
              (fun u tx hm => Or.inl hm)

/-- Claim C9: every operation applies its balance mutation before invoking
the recorder, so every transaction present after an operation that was not
present before carries a `balance_after` equal to the owning account's
balance in the resulting state (no operation mutates a balance again after
recording for that account). -/
theorem C9_balance_after_accurate :
    (∀ s username password email d aid tid now, AccurateFrom s
      (stateOf (create_account s username password email d aid tid now) s))
    ∧ (∀ s u amt tid now, AccurateFrom s (stateOf (deposit s u amt tid now) s))
    ∧ (∀ s u amt tid now, AccurateFrom s (stateOf (withdraw s u amt tid now) s))
    ∧ (∀ s tid txid now, AccurateFrom s (stateOf (confirm_transfer s tid txid now) s))
    ∧ (∀ s u amt m lid tid now, AccurateFrom s
        (stateOf (apply_for_loan s u amt m lid tid now) s))
    ∧ (∀ s u lid amt tid now, AccurateFrom s
        (stateOf (make_loan_payment s u lid amt tid now) s))
    ∧ (∀ s u amt m fid tid now, AccurateFrom s
        (stateOf (create_fixed_deposit s u amt m fid tid now) s))
    ∧ (∀ s u fid tid now, AccurateFrom s
        (stateOf (close_fixed_deposit s u fid tid now) s)) :=
  ⟨fun s a b c d e f g => create_account_accurate s a b c d e f g,
   fun s u amt tid now => deposit_accurate s u amt tid now,
   fun s u amt tid now => withdraw_accurate s u amt tid now,
   fun s tid txid now => confirm_transfer_accurate s tid txid now,
   fun s u amt m lid tid now => apply_for_loan_accurate s u amt m lid tid now,
   fun s u lid amt tid now => make_loan_payment_accurate s u lid amt tid now,
   fun s u amt m fid tid now => create_fixed_deposit_accurate s u amt m fid tid now,
   fun s u fid tid now => close_fixed_deposit_accurate s u fid tid now⟩

/-- Claim C10 (implicit): a loan payment that passes every validation but
exceeds the loan's remaining balance is debited from the account in full —
no clamping or refund — the remaining balance becomes strictly negative,
and the loan is marked paid with an end date in the same call. -/
theorem C10_overpayment (s : BankState) (u lid tid : String) (amt now : ℤ)
    (loan : Loan) (a : Account)
    (hl : ((s.loans.lookup u).getD []).lookup lid = some loan)
    (hact : loan.status = "active")
    (ha : s.accounts.lookup u = some a)
    (hfunds : amt ≤ a.balance)
    (hmin : loan.monthly_payment ≤ amt)
    (hpos : 0 < amt)
    (hover : loan.remaining_balance < (amt : ℚ)) :
    ∃ s' msg, make_loan_payment s u lid amt tid now = some (s', true, msg)
      ∧ bal s' u = a.balance - amt
      ∧ ((s'.loans.lookup u).getD []).lookup lid = some
          { loan with
            remaining_balance := loan.remaining_balance - (amt : ℚ),
            payments_made := loan.payments_made + 1,
            status := "paid", end_date := some now }
      ∧ loan.remaining_balance - (amt : ℚ) < 0 := by
  have hstat : ¬ loan.status ≠ "active" := by simp [hact]
  have hpaid : loan.remaining_balance - (amt : ℚ) ≤ 0 := by linarith
  have hrec := lookup_dictSet_self s.accounts u { a with balance := a.balance - amt }
  have heq : make_loan_payment s u lid amt tid now = some
      ({ s with
          accounts := (dictSet s.accounts u { a with balance := a.balance - amt }),
          transactions := (dictSet s.transactions u
            ((s.transactions.lookup u).getD [] ++
              [⟨"Loan Payment", amt, now, a.balance - amt, tid,
                some ("Loan ID: " ++ lid)⟩])),
          loans := (dictSet
            (dictSet s.loans u (dictSet ((s.loans.lookup u).getD []) lid
              { loan with
                remaining_balance := loan.remaining_balance - (amt : ℚ),
                payments_made := loan.payments_made + 1 })) u
            (dictSet (dictSet ((s.loans.lookup u).getD []) lid
              { loan with
                remaining_balance := loan.remaining_balance - (amt : ℚ),
                payments_made := loan.payments_made + 1 }) lid
              { loan with
                remaining_balance := loan.remaining_balance - (amt : ℚ),
                payments_made := loan.payments_made + 1,
                status := "paid", end_date := some now })) },
        true, "Payment of $" ++ toString amt ++ " applied to loan " ++ lid) := by
    unfold make_loan_payment
    simp only [hl]
    rw [if_neg hstat, if_neg (show ¬ amt ≤ 0 by omega)]
    simp only [ha]
    rw [if_neg (show ¬ a.balance < amt by omega)]
    rw [if_neg (show ¬ amt < loan.monthly_payment by omega)]
    simp only [record_transaction, hrec, if_pos hpaid]
  refine ⟨_, _, heq, ?_, ?_, ?_⟩
  · simp [bal, hrec]
  · have g1 := lookup_dictSet_self
      (dictSet s.loans u (dictSet ((s.loans.lookup u).getD []) lid
        { loan with
          remaining_balance := loan.remaining_balance - (amt : ℚ),
          payments_made := loan.payments_made + 1 })) u
      (dictSet (dictSet ((s.loans.lookup u).getD []) lid
        { loan with
          remaining_balance := loan.remaining_balance - (amt : ℚ),
          payments_made := loan.payments_made + 1 }) lid
        { loan with
          remaining_balance := loan.remaining_balance - (amt : ℚ),
          payments_made := loan.payments_made + 1,
          status := "paid", end_date := some now })
    simp only [g1, Option.getD_some]
    exact lookup_dictSet_self _ _ _
  · linarith

/-- Witness for C10: the 20 is debited in full, the remaining balance goes
to -8, and the loan is marked paid. -/
theorem C10_witness :
    ∃ s' msg, make_loan_payment C10wStart "nora" "L10" 20 "T10" 7 =
        some (s', true, msg)
      ∧ bal s' "nora" = 100 - 20
      ∧ ((s'.loans.lookup "nora").getD []).lookup "L10" = some
          ⟨100, 12, 0, 9, (12 : ℚ) - (20 : ℤ), 0, "paid", 3 + 1, some 7⟩
      ∧ (12 : ℚ) - ((20 : ℤ) : ℚ) < 0 :=
  C10_overpayment C10wStart "nora" "L10" "T10" 20 7
    ⟨100, 12, 0, 9, 12, 0, "active", 3, none⟩
    (mkAccount 100 0 "N1" "nora@mail.com")
    (by decide) (by decide) (by decide) (by decide) (by decide) (by decide)
    (by norm_num)
